import Mathlib

/- Verification development for the precomputed atmospheric-scattering pipeline of
   OpenSpace (modules/atmosphere/rendering/atmospheredeferredcaster.cpp).
   Floating-point values are modelled by real numbers; GLSL/glm three-component
   vectors by the structure V3; the CPU-side RGB texture by a list of V3 texels in
   row-major order.  Each definition mirrors the correspondingly named C++ function. -/

namespace OpenSpaceAtmosphere

/-- Model of glm::vec3 / glm::dvec3: a three-component real vector. -/
@[ext]
structure V3 where
  x : ℝ
  y : ℝ
  z : ℝ

instance : Zero V3 := ⟨⟨0, 0, 0⟩⟩

instance : Add V3 := ⟨fun a b => ⟨a.x + b.x, a.y + b.y, a.z + b.z⟩⟩

instance : Sub V3 := ⟨fun a b => ⟨a.x - b.x, a.y - b.y, a.z - b.z⟩⟩

instance : Neg V3 := ⟨fun a => ⟨-a.x, -a.y, -a.z⟩⟩

/-- Componentwise product, as glm's vec * vec. -/
instance : Mul V3 := ⟨fun a b => ⟨a.x * b.x, a.y * b.y, a.z * b.z⟩⟩

/-- Componentwise quotient, as glm's vec / vec. -/
noncomputable instance : Div V3 := ⟨fun a b => ⟨a.x / b.x, a.y / b.y, a.z / b.z⟩⟩

/-- Scalar times vector, as glm's float * vec (and vec * float). -/
instance : SMul ℝ V3 := ⟨fun t a => ⟨t * a.x, t * a.y, t * a.z⟩⟩

@[simp] lemma V3.zero_x : (0 : V3).x = 0 := rfl
@[simp] lemma V3.zero_y : (0 : V3).y = 0 := rfl
@[simp] lemma V3.zero_z : (0 : V3).z = 0 := rfl
@[simp] lemma V3.add_x (a b : V3) : (a + b).x = a.x + b.x := rfl
@[simp] lemma V3.add_y (a b : V3) : (a + b).y = a.y + b.y := rfl
@[simp] lemma V3.add_z (a b : V3) : (a + b).z = a.z + b.z := rfl
@[simp] lemma V3.sub_x (a b : V3) : (a - b).x = a.x - b.x := rfl
@[simp] lemma V3.sub_y (a b : V3) : (a - b).y = a.y - b.y := rfl
@[simp] lemma V3.sub_z (a b : V3) : (a - b).z = a.z - b.z := rfl
@[simp] lemma V3.neg_x (a : V3) : (-a).x = -a.x := rfl
@[simp] lemma V3.neg_y (a : V3) : (-a).y = -a.y := rfl
@[simp] lemma V3.neg_z (a : V3) : (-a).z = -a.z := rfl
@[simp] lemma V3.mul_x (a b : V3) : (a * b).x = a.x * b.x := rfl
@[simp] lemma V3.mul_y (a b : V3) : (a * b).y = a.y * b.y := rfl
@[simp] lemma V3.mul_z (a b : V3) : (a * b).z = a.z * b.z := rfl
@[simp] lemma V3.div_x (a b : V3) : (a / b).x = a.x / b.x := rfl
@[simp] lemma V3.div_y (a b : V3) : (a / b).y = a.y / b.y := rfl
@[simp] lemma V3.div_z (a b : V3) : (a / b).z = a.z / b.z := rfl
@[simp] lemma V3.smul_x (t : ℝ) (a : V3) : (t • a).x = t * a.x := rfl
@[simp] lemma V3.smul_y (t : ℝ) (a : V3) : (t • a).y = t * a.y := rfl
@[simp] lemma V3.smul_z (t : ℝ) (a : V3) : (t • a).z = t * a.z := rfl
@[simp] lemma V3.mk_x (a b c : ℝ) : (V3.mk a b c).x = a := rfl
@[simp] lemma V3.mk_y (a b c : ℝ) : (V3.mk a b c).y = b := rfl
@[simp] lemma V3.mk_z (a b c : ℝ) : (V3.mk a b c).z = c := rfl

instance : AddCommMonoid V3 where
  add_assoc a b c := by ext <;> simp <;> ring
  zero_add a := by ext <;> simp
  add_zero a := by ext <;> simp
  add_comm a b := by ext <;> simp <;> ring
  nsmul := nsmulRec

/-- glm::dot for three-component vectors. -/
def V3.dot (a b : V3) : ℝ := a.x * b.x + a.y * b.y + a.z * b.z

/-- glm::length for three-component vectors. -/
noncomputable def V3.length (a : V3) : ℝ := Real.sqrt (V3.dot a a)

/-- glm::exp applied componentwise, as in the transmittance computation. -/
noncomputable def V3.expc (a : V3) : V3 := ⟨Real.exp a.x, Real.exp a.y, Real.exp a.z⟩

/-- glm::min of a vector and a scalar, applied componentwise. -/
def V3.minS (a : V3) (s : ℝ) : V3 := ⟨min a.x s, min a.y s, min a.z s⟩

@[simp] lemma V3.minS_x (a : V3) (s : ℝ) : (V3.minS a s).x = min a.x s := rfl
@[simp] lemma V3.minS_y (a : V3) (s : ℝ) : (V3.minS a s).y = min a.y s := rfl
@[simp] lemma V3.minS_z (a : V3) (s : ℝ) : (V3.minS a s).z = min a.z s := rfl

/-- Model of the CPUTexture struct used by the CPU-side table computations: an RGB
    image of the given size whose texels are stored in row-major order, texel
    (i, j) at list index j * width + i (the C++ code stores three floats per texel
    at flat index (j * width + i) * 3). -/
structure CPUTexture where
  width : ℕ
  height : ℕ
  data : List V3

/-- static_cast<int> applied to a floating-point value: truncation toward zero. -/
noncomputable def cppTrunc (v : ℝ) : ℤ := if v < 0 then -⌊-v⌋ else ⌊v⌋

/-- std::clamp on integers: v below lo gives lo, v above hi gives hi. -/
def cppClamp (v lo hi : ℤ) : ℤ := if v < lo then lo else if hi < v then hi else v

/-- glm::mix(x, y, a) = x + a * (y - x), componentwise linear interpolation. -/
def mix3 (a b : V3) (t : ℝ) : V3 := a + t • (b - a)

/-- The getColor lambda of the CPU texture lookup: reads the texel at integer
    coordinates (i, j), i.e. list index j * width + i. -/
def CPUTexture.getColor (tex : CPUTexture) (i j : ℤ) : V3 :=
  tex.data.getD (j * (tex.width : ℤ) + i).toNat 0

/-- The CPU bilinear texture lookup (function texture(tex, x, y) of the source).
    Scales the (0,1) lookup coordinates by (size - 1), clamps the four surrounding
    integer texel coordinates, and interpolates.  Note that the source interpolates
    c2 between c21 and c22 (not c12 and c22); this definition reproduces that. -/
noncomputable def texture (tex : CPUTexture) (x y : ℝ) : V3 :=
  let xs := x * ((tex.width : ℝ) - 1)
  let ys := y * ((tex.height : ℝ) - 1)
  let x1 := cppClamp (cppTrunc xs) 0 ((tex.width : ℤ) - 1)
  let y1 := cppClamp (cppTrunc ys) 0 ((tex.height : ℤ) - 1)
  let x2 := cppClamp (x1 + 1) 0 ((tex.width : ℤ) - 1)
  let y2 := cppClamp (y1 + 1) 0 ((tex.height : ℤ) - 1)
  let fx := xs - (x1 : ℝ)
  let fy := ys - (y1 : ℝ)
  let c11 := tex.getColor x1 y1
  let c21 := tex.getColor x2 y1
  let c22 := tex.getColor x2 y2
  let c1 := mix3 c11 c21 fx
  let c2 := mix3 c21 c22 fx
  mix3 c1 c2 fy

/-- Modelled from the claim text of the bilinear-interpolation property: the same
    lookup but with the second horizontal interpolation taken between c12 and c22,
    which is the standard bilinear formula the function's own comment describes. -/
noncomputable def textureBilinearClaim (tex : CPUTexture) (x y : ℝ) : V3 :=
  let xs := x * ((tex.width : ℝ) - 1)
  let ys := y * ((tex.height : ℝ) - 1)
  let x1 := cppClamp (cppTrunc xs) 0 ((tex.width : ℤ) - 1)
  let y1 := cppClamp (cppTrunc ys) 0 ((tex.height : ℤ) - 1)
  let x2 := cppClamp (x1 + 1) 0 ((tex.width : ℤ) - 1)
  let y2 := cppClamp (y1 + 1) 0 ((tex.height : ℤ) - 1)
  let fx := xs - (x1 : ℝ)
  let fy := ys - (y1 : ℝ)
  let c11 := tex.getColor x1 y1
  let c12 := tex.getColor x1 y2
  let c21 := tex.getColor x2 y1
  let c22 := tex.getColor x2 y2
  let c1 := mix3 c11 c21 fx
  let c2 := mix3 c12 c22 fx
  mix3 c1 c2 fy

/-- The u_r texture coordinate used by the transmittance table lookup. -/
noncomputable def lookupRCoord (r Rg Rt : ℝ) : ℝ := Real.sqrt ((r - Rg) / (Rt - Rg))

/-- The u_mu texture coordinate used by the transmittance table lookup
    (Collienne mapping). -/
noncomputable def lookupMuCoord (mu : ℝ) : ℝ :=
  Real.arctan ((mu + 0.15) / 1.15 * Real.tan 1.5) / 1.5

/-- The transmittance-table access transmittance(tex, r, mu, Rg, Rt). -/
noncomputable def transmittance (tex : CPUTexture) (r mu Rg Rt : ℝ) : V3 :=
  texture tex (lookupMuCoord mu) (lookupRCoord r Rg Rt)

/-- The distance-limited transmittance transmittance(tex, r, mu, d, Rg, Rt),
    computed as a ratio of two table lookups; for mu <= 0 the ray direction and
    the start and end points are inverted.  The result is clamped to at most 1. -/
noncomputable def transmittanceD (tex : CPUTexture) (r mu d Rg Rt : ℝ) : V3 :=
  let ri := Real.sqrt (d * d + r * r + 2 * r * d * mu)
  let mui := (d + r * mu) / ri
  let res :=
    if 0 < mu then transmittance tex r mu Rg Rt / transmittance tex ri mui Rg Rt
    else transmittance tex ri (-mui) Rg Rt / transmittance tex r (-mu) Rg Rt
  V3.minS res 1

/-- rayDistance(r, mu, Rt, Rg): length of the ray from height r with direction
    cosine mu to the top of the atmosphere (with epsilon 1.0) or the ground,
    whichever comes first. -/
noncomputable def rayDistance (r mu Rt Rg : ℝ) : ℝ :=
  let atmRadiusEps2 := (Rt + 1) * (Rt + 1)
  let mu2 := mu * mu
  let r2 := r * r
  let rayDistanceAtmosphere := -r * mu + Real.sqrt (r2 * (mu2 - 1) + atmRadiusEps2)
  let delta := r2 * (mu2 - 1) + Rg * Rg
  if 0 ≤ delta then
    let rayDistanceGround := -r * mu - Real.sqrt delta
    if 0 ≤ rayDistanceGround then min rayDistanceAtmosphere rayDistanceGround
    else rayDistanceAtmosphere
  else rayDistanceAtmosphere

/-- The integrand sample of the optical-depth integral: for offset x along the ray,
    exp(-(sqrt(r^2 + x^2 + 2 x r mu) - Rg) / H) (cosine law for the height at x). -/
noncomputable def odSample (r mu Rg H x : ℝ) : ℝ :=
  Real.exp (-(Real.sqrt (r * r + x * x + 2 * x * r * mu) - Rg) / H)

/-- The opticalDepth lambda inside computeTransmittance: trapezoidal integration of
    the density falloff with 500 steps along rayDistance(r, mu, Rt, Rg), returning
    1e9 for rays below the horizon. -/
noncomputable def opticalDepth (r mu H Rt Rg : ℝ) : ℝ :=
  let cosZenithHorizon := -Real.sqrt (1 - Rg * Rg / (r * r))
  if mu < cosZenithHorizon then 1e9
  else
    let b_a := rayDistance r mu Rt Rg
    let deltaStep := b_a / 500
    let res := (List.range' 1 500).foldl
      (fun st (i : ℕ) =>
        (st.1 + (odSample r mu Rg H ((i : ℝ) * deltaStep) + st.2),
         odSample r mu Rg H ((i : ℝ) * deltaStep)))
      (0, Real.exp (-(r - Rg) / H))
    res.1 * (b_a / (2 * 500))

/-- The texel-to-radius generation mapping of computeTransmittance:
    r = Rg + u_r^2 (Rt - Rg). -/
def genR (Rg Rt u_r : ℝ) : ℝ := Rg + u_r * u_r * (Rt - Rg)

/-- The texel-to-sun-angle generation mapping of computeTransmittance
    (Collienne mapping): mu = -0.15 + tan(1.5 u_mu) / tan(1.5) * 1.15. -/
noncomputable def genMuSun (u_mu : ℝ) : ℝ :=
  -0.15 + Real.tan (1.5 * u_mu) / Real.tan 1.5 * 1.15

/-- The per-texel body of computeTransmittance: maps the texel center to (r, muSun)
    and stores exp of minus the summed optical depths, with the ozone term present
    only when the ozone layer is enabled. -/
noncomputable def transmittanceTexel (Rg Rt HR : ℝ) (betaRayleigh : V3) (HO : ℝ)
    (betaOzoneExtinction : V3) (HM : ℝ) (betaMieExtinction : V3)
    (ozoneLayerEnabled : Bool) (sizeX sizeY : ℕ) (px py : ℕ) : V3 :=
  let u_mu := ((px : ℝ) + 0.5) / (sizeX : ℝ)
  let u_r := ((py : ℝ) + 0.5) / (sizeY : ℝ)
  let r := genR Rg Rt u_r
  let muSun := genMuSun u_mu
  let ozoneContribution :=
    if ozoneLayerEnabled then
      (0.0000006 * opticalDepth r muSun HO Rt Rg) • betaOzoneExtinction
    else 0
  let opDepth := ozoneContribution
  let opDepthBetaMie := opticalDepth r muSun HM Rt Rg • betaMieExtinction
  let opDepthBetaRay := opticalDepth r muSun HR Rt Rg • betaRayleigh
  V3.expc (-(opDepth + opDepthBetaMie + opDepthBetaRay))

/-- computeTransmittance: the CPU transmittance table, written texel by texel in
    row-major order (y outer loop, x inner loop). -/
noncomputable def computeTransmittance (Rg Rt HR : ℝ) (betaRayleigh : V3) (HO : ℝ)
    (betaOzoneExtinction : V3) (HM : ℝ) (betaMieExtinction : V3)
    (ozoneLayerEnabled : Bool) (sizeX sizeY : ℕ) : List V3 :=
  (List.range sizeY).flatMap fun py =>
    (List.range sizeX).map fun px =>
      transmittanceTexel Rg Rt HR betaRayleigh HO betaOzoneExtinction HM
        betaMieExtinction ozoneLayerEnabled sizeX sizeY px py

/-- The integrand of the single in-scattering integral: Rayleigh and Mie single
    in-scattered radiance at offset y along the view ray (phase functions and sun
    radiance are applied at render time), zero when the sun is below the horizon. -/
noncomputable def integrand (r mu muSun nu y Rg Rt : ℝ) (tex : CPUTexture)
    (ozoneLayerEnabled : Bool) (HO HM HR : ℝ) : V3 × V3 :=
  let ri := max (Real.sqrt (r * r + y * y + 2 * r * mu * y)) Rg
  let muSun_i := (nu * y + muSun * r) / ri
  if -Real.sqrt (1 - Rg * Rg / (ri * ri)) ≤ muSun_i then
    let transmittanceY :=
      transmittanceD tex r mu y Rg Rt * transmittance tex ri muSun_i Rg Rt
    if ozoneLayerEnabled then
      ((Real.exp (-(ri - Rg) / HO) + Real.exp (-(ri - Rg) / HR)) • transmittanceY,
       Real.exp (-(ri - Rg) / HM) • transmittanceY)
    else
      (Real.exp (-(ri - Rg) / HR) • transmittanceY,
       Real.exp (-(ri - Rg) / HM) • transmittanceY)
  else (0, 0)

/-- inscatter: trapezoidal integration of the single in-scattering integrand with
    50 samples along rayDistance(r, mu, Rt, Rg), scaled at the end by the Rayleigh
    and Mie scattering coefficients. -/
noncomputable def inscatter (r mu muSun nu Rt Rg : ℝ) (tex : CPUTexture)
    (ozoneLayerEnabled : Bool) (HO HM HR : ℝ)
    (betaRayleigh betaMieScattering : V3) : V3 × V3 :=
  let rayDist := rayDistance r mu Rt Rg
  let dy := rayDist / 50
  let res := (List.range' 1 50).foldl
    (fun st (i : ℕ) =>
      (st.1 + (st.2 + integrand r mu muSun nu ((i : ℝ) * dy) Rg Rt tex
                        ozoneLayerEnabled HO HM HR),
       integrand r mu muSun nu ((i : ℝ) * dy) Rg Rt tex ozoneLayerEnabled HO HM HR))
    (0, integrand r mu muSun nu 0 Rg Rt tex ozoneLayerEnabled HO HM HR)
  (res.1.1 * ((rayDist / (2 * 50)) • betaRayleigh),
   res.1.2 * ((rayDist / (2 * 50)) • betaMieScattering))

/-- The GPU table-construction passes issued by calculateAtmosphereParameters,
    in order: the five initial passes, then for each scattering order the deltaJ,
    deltaE, deltaS passes and the two additive accumulation passes. -/
inductive AtmoPass where
  | transmittancePass
  | deltaEPass0
  | deltaSPass0
  | irradiancePass0
  | inscatterPass0
  | deltaJPass (order : ℕ)
  | deltaESupPass (order : ℕ)
  | deltaSSupPass (order : ℕ)
  | irradianceSupPass (order : ℕ)
  | inscatterSupPass (order : ℕ)
deriving DecidableEq, Repr

/-- The sequence of passes executed by calculateAtmosphereParameters: lines 1-5 of
    Bruneton's algorithm 4.1 followed by the loop for scattering orders 2 to 4
    (lines 7 to 11 for each order). -/
def calculateAtmosphereParameters : List AtmoPass :=
  [AtmoPass.transmittancePass, AtmoPass.deltaEPass0, AtmoPass.deltaSPass0,
   AtmoPass.irradiancePass0, AtmoPass.inscatterPass0] ++
    (List.range' 2 3).flatMap fun o =>
      [AtmoPass.deltaJPass o, AtmoPass.deltaESupPass o, AtmoPass.deltaSSupPass o,
       AtmoPass.irradianceSupPass o, AtmoPass.inscatterSupPass o]

/-- The firstIteration uniform passed to the deltaJ and deltaE programs:
    (scatteringOrder == 2) ? 1 : 0. -/
def firstIterationUniform (scatteringOrder : ℤ) : ℤ :=
  if scatteringOrder = 2 then 1 else 0

/-- Abstract contents of the precomputation tables: which scattering order each
    delta table currently holds (0 = not yet written) and which orders have been
    accumulated into the irradiance and in-scattering tables. -/
structure TableState where
  transmittanceReady : Bool := false
  deltaEOrder : ℕ := 0
  deltaSOrder : ℕ := 0
  deltaJOrder : ℕ := 0
  irradianceOrders : List ℕ := []
  inscatterOrders : List ℕ := []
deriving DecidableEq, Repr

/-- Effect of one pass on the abstract table contents, following which table each
    pass renders to: the delta passes overwrite their table with the data of the
    given order, the two accumulation passes blend additively. -/
def stepTables (s : TableState) : AtmoPass → TableState
  | AtmoPass.transmittancePass => { s with transmittanceReady := true }
  | AtmoPass.deltaEPass0 => { s with deltaEOrder := 1 }
  | AtmoPass.deltaSPass0 => { s with deltaSOrder := 1 }
  | AtmoPass.irradiancePass0 => { s with irradianceOrders := [] }
  | AtmoPass.inscatterPass0 => { s with inscatterOrders := [1] }
  | AtmoPass.deltaJPass o => { s with deltaJOrder := o }
  | AtmoPass.deltaESupPass o => { s with deltaEOrder := o }
  | AtmoPass.deltaSSupPass o => { s with deltaSOrder := o }
  | AtmoPass.irradianceSupPass o =>
      { s with irradianceOrders := s.irradianceOrders ++ [o] }
  | AtmoPass.inscatterSupPass o =>
      { s with inscatterOrders := s.inscatterOrders ++ [o] }

/-- The data-dependency check for a pass: the tables a pass samples (per the
    textures each program binds) must hold exactly the order the algorithm
    requires: deltaJ for order o reads transmittance and the order o-1 deltaE and
    deltaS tables, deltaE reads the order o-1 deltaS tables, deltaS reads
    transmittance and the order o deltaJ table, and the accumulation passes read
    the freshly written order o delta tables. -/
def passReadsOk (s : TableState) : AtmoPass → Bool
  | AtmoPass.transmittancePass => true
  | AtmoPass.deltaEPass0 => s.transmittanceReady
  | AtmoPass.deltaSPass0 => s.transmittanceReady
  | AtmoPass.irradiancePass0 => true
  | AtmoPass.inscatterPass0 => s.deltaSOrder == 1
  | AtmoPass.deltaJPass o =>
      s.transmittanceReady && s.deltaEOrder == o - 1 && s.deltaSOrder == o - 1
  | AtmoPass.deltaESupPass o => s.deltaSOrder == o - 1
  | AtmoPass.deltaSSupPass o => s.transmittanceReady && s.deltaJOrder == o
  | AtmoPass.irradianceSupPass o => s.deltaEOrder == o
  | AtmoPass.inscatterSupPass o => s.deltaSOrder == o

/-- C++ float-to-int conversion on an exact rational value: truncation toward 0. -/
def cppRatToInt (q : ℚ) : ℤ := if 0 ≤ q then ⌊q⌋ else ⌈q⌉

/-- The table-size fields initialized by the AtmosphereDeferredcaster constructor
    (2D table sizes and the sample counts packed into the 3D texture size). -/
structure DeferredcasterSizes where
  transmittanceTableSize : ℤ × ℤ
  irradianceTableSize : ℤ × ℤ
  deltaETableSize : ℤ × ℤ
  muSSamples : ℤ
  nuSamples : ℤ
  muSamples : ℤ
  rSamples : ℤ
  textureSize : ℤ × ℤ × ℤ
deriving DecidableEq, Repr

/-- The AtmosphereDeferredcaster constructor's member initializers, with the 3D
    in-scattering texture allocated with dimensions textureSize. -/
def mkAtmosphereDeferredcaster (textureScale : ℚ) : DeferredcasterSizes :=
  let muSS := cppRatToInt (32 * textureScale)
  let nuS := cppRatToInt (8 * textureScale)
  let muS := cppRatToInt (128 * textureScale)
  let rS := cppRatToInt (32 * textureScale)
  { transmittanceTableSize :=
      (cppRatToInt (256 * textureScale), cppRatToInt (64 * textureScale))
    irradianceTableSize :=
      (cppRatToInt (64 * textureScale), cppRatToInt (16 * textureScale))
    deltaETableSize :=
      (cppRatToInt (64 * textureScale), cppRatToInt (16 * textureScale))
    muSSamples := muSS
    nuSamples := nuS
    muSamples := muS
    rSamples := rS
    textureSize := (muSS * nuS, muS, rS) }

/-- Model of the ShadowRenderingStruct filled by preRaycast and read by
    eclipseShadow. -/
structure ShadowRenderingStruct where
  isShadowing : Bool := false
  radiusSource : ℝ := 0
  radiusCaster : ℝ := 0
  sourceCasterVec : V3 := 0
  penumbra : ℝ := 0
  umbra : ℝ := 0
  casterPositionVec : V3 := 0

/-- The vector from the shadowed position to the shadow caster. -/
def positionToCaster (shadow : ShadowRenderingStruct) (position : V3) : V3 :=
  shadow.casterPositionVec - position

/-- The projection of positionToCaster onto the (normalized) source-to-caster
    axis. -/
def casterShadowV (shadow : ShadowRenderingStruct) (position : V3) : V3 :=
  V3.dot (positionToCaster shadow position) shadow.sourceCasterVec •
    shadow.sourceCasterVec

/-- distanceToShadow: distance from the position to the shadow axis. -/
noncomputable def distanceToShadow (shadow : ShadowRenderingStruct)
    (position : V3) : ℝ :=
  V3.length (positionToCaster shadow position - casterShadowV shadow position)

/-- shadowLength: distance along the shadow axis. -/
noncomputable def shadowLength (shadow : ShadowRenderingStruct)
    (position : V3) : ℝ :=
  V3.length (casterShadowV shadow position)

/-- The penumbra radius at the position's depth along the shadow axis. -/
noncomputable def radiusPenumbra (shadow : ShadowRenderingStruct)
    (position : V3) : ℝ :=
  shadow.radiusCaster * (shadowLength shadow position + shadow.penumbra) /
    shadow.penumbra

/-- The umbra radius at the position's depth along the shadow axis. -/
noncomputable def radiusUmbra (shadow : ShadowRenderingStruct)
    (position : V3) : ℝ :=
  shadow.radiusCaster * (shadow.umbra - shadowLength shadow position) /
    shadow.umbra

/-- The attenuation computed by eclipseShadow for the first (shadowing) entry of
    the shadow-data cache: 0.5 in both shaded regions with hard shadows, a
    Butterworth-smoothed value in the umbra and a linear ramp in the penumbra
    otherwise, and 1 outside. -/
noncomputable def eclipseShadowBody (shadow : ShadowRenderingStruct)
    (hardShadowsEnabled : Bool) (position : V3) : ℝ :=
  let d := distanceToShadow shadow position
  let ru := radiusUmbra shadow position
  let rp := radiusPenumbra shadow position
  if d < ru then
    if hardShadowsEnabled then 0.5
    else Real.sqrt (ru / (ru + d ^ 4))
  else if d < rp then
    if hardShadowsEnabled then 0.5 else d / rp
  else 1

/-- eclipseShadow(position): 1 when the shadow-data cache is empty or its first
    entry is not shadowing, and otherwise the attenuation of the first entry. -/
noncomputable def eclipseShadow (shadowDataArrayCache : List ShadowRenderingStruct)
    (hardShadowsEnabled : Bool) (position : V3) : ℝ :=
  match shadowDataArrayCache with
  | [] => 1
  | shadow :: _ =>
      if shadow.isShadowing = false then 1
      else eclipseShadowBody shadow hardShadowsEnabled position

/-- Model of glm::dvec4. -/
structure V4 where
  x : ℝ
  y : ℝ
  z : ℝ
  w : ℝ

/-- Model of glm::dmat4 as its four columns; entry mv[c][r] is component r of
    column c. -/
structure Mat4 where
  col0 : V4
  col1 : V4
  col2 : V4
  col3 : V4

/-- Matrix times column vector for 4x4 column-major matrices. -/
def Mat4.mulVec (m : Mat4) (v : V4) : V4 :=
  ⟨m.col0.x * v.x + m.col1.x * v.y + m.col2.x * v.z + m.col3.x * v.w,
   m.col0.y * v.x + m.col1.y * v.y + m.col2.y * v.z + m.col3.y * v.w,
   m.col0.z * v.x + m.col1.z * v.y + m.col2.z * v.z + m.col3.z * v.w,
   m.col0.w * v.x + m.col1.w * v.y + m.col2.w * v.z + m.col3.w * v.w⟩

/-- Matrix product, column by column. -/
def Mat4.mul (a b : Mat4) : Mat4 :=
  ⟨a.mulVec b.col0, a.mulVec b.col1, a.mulVec b.col2, a.mulVec b.col3⟩

/-- The upper-left 3x3 block (glm::dmat3 of a dmat4) applied to a 3-vector. -/
def Mat4.mat3MulVec (m : Mat4) (v : V3) : V3 :=
  ⟨m.col0.x * v.x + m.col1.x * v.y + m.col2.x * v.z,
   m.col0.y * v.x + m.col1.y * v.y + m.col2.y * v.z,
   m.col0.z * v.x + m.col1.z * v.y + m.col2.z * v.z⟩

/-- The xyz part of a 4-component vector. -/
def V4.xyz (v : V4) : V3 := ⟨v.x, v.y, v.z⟩

/-- isAtmosphereInFrustum(mv, position, radius): the sphere of the given radius
    around the position is not strictly outside any of the five tested frustum
    planes of the model-view-projection matrix. -/
noncomputable def isAtmosphereInFrustum (mv : Mat4) (position : V3)
    (radius : ℝ) : Prop :=
  let col1 : V3 := ⟨mv.col0.x, mv.col1.x, mv.col2.x⟩
  let col2 : V3 := ⟨mv.col0.y, mv.col1.y, mv.col2.y⟩
  let col3 : V3 := ⟨mv.col0.z, mv.col1.z, mv.col2.z⟩
  let col4 : V3 := ⟨mv.col0.w, mv.col1.w, mv.col2.w⟩
  let leftNormal := col4 + col1
  let rightNormal := col4 - col1
  let bottomNormal := col4 + col2
  let topNormal := col4 - col2
  let nearNormal := col3 + col4
  let leftDistance := (mv.col3.w + mv.col3.x) * (1 / V3.length leftNormal)
  let rightDistance := (mv.col3.w - mv.col3.x) * (1 / V3.length rightNormal)
  let bottomDistance := (mv.col3.w + mv.col3.y) * (1 / V3.length bottomNormal)
  let topDistance := (mv.col3.w - mv.col3.y) * (1 / V3.length topNormal)
  let nearDistance := (mv.col3.w + mv.col3.z) * (1 / V3.length nearNormal)
  let leftN := (1 / V3.length leftNormal) • leftNormal
  let rightN := (1 / V3.length rightNormal) • rightNormal
  let bottomN := (1 / V3.length bottomNormal) • bottomNormal
  let topN := (1 / V3.length topNormal) • topNormal
  let nearN := (1 / V3.length nearNormal) • nearNormal
  ¬ (V3.dot leftN position + leftDistance < -radius ∨
     V3.dot rightN position + rightDistance < -radius ∨
     V3.dot bottomN position + bottomDistance < -radius ∨
     V3.dot topN position + topDistance < -radius ∨
     V3.dot nearN position + nearDistance < -radius)

/-- One GL-visible action of preRaycast: setting the cullAtmosphere uniform to a
    value, setting any other named uniform, or binding one of the three lookup
    tables to a texture unit. -/
inductive PreRayAction where
  | cullUniform (v : ℤ)
  | uniform (name : String)
  | bindTexture (name : String)
deriving DecidableEq, Repr

/-- The uniforms preRaycast sets inside the culling-test branch, before the
    shadow loop, in source order (cullAtmosphere = 0 is tracked separately). -/
def baseUniforms : List PreRayAction :=
  [PreRayAction.uniform ("opacity"), PreRayAction.uniform ("Rg"),
   PreRayAction.uniform ("Rt"), PreRayAction.uniform ("groundRadianceEmission"),
   PreRayAction.uniform ("HR"), PreRayAction.uniform ("betaRayleigh"),
   PreRayAction.uniform ("HM"), PreRayAction.uniform ("betaMieExtinction"),
   PreRayAction.uniform ("mieG"), PreRayAction.uniform ("sunRadiance"),
   PreRayAction.uniform ("ozoneLayerEnabled"), PreRayAction.uniform ("HO"),
   PreRayAction.uniform ("betaOzoneExtinction"), PreRayAction.uniform ("SAMPLES_R"),
   PreRayAction.uniform ("SAMPLES_MU"), PreRayAction.uniform ("SAMPLES_MU_S"),
   PreRayAction.uniform ("SAMPLES_NU"), PreRayAction.uniform ("sunAngularSize"),
   PreRayAction.uniform ("inverseModelTransformMatrix"),
   PreRayAction.uniform ("modelTransformMatrix"),
   PreRayAction.uniform ("viewToWorldMatrix"),
   PreRayAction.uniform ("projectionToModelTransformMatrix"),
   PreRayAction.uniform ("camPosObj"), PreRayAction.uniform ("sunDirectionObj")]

/-- The unconditional tail of preRaycast: the three table textures are bound to
    texture units and set as samplers on the program. -/
def bindActions : List PreRayAction :=
  [PreRayAction.bindTexture ("transmittance"),
   PreRayAction.uniform ("transmittanceTexture"),
   PreRayAction.bindTexture ("irradiance"),
   PreRayAction.uniform ("irradianceTexture"),
   PreRayAction.bindTexture ("inScattering"),
   PreRayAction.uniform ("inscatterTexture")]

/-- One entry of the shadow configuration array together with the data the shadow
    loop obtains from its environment: the Spice positions of source and caster
    (in kilometers), the configured radii, the maximal scene-graph node scales,
    and whether the source and caster scene-graph nodes resolve. -/
structure ShadowConfE where
  sourceValid : Bool
  casterValid : Bool
  sourcePosKm : V3
  casterPosKm : V3
  sourceRadius : ℝ
  casterRadius : ℝ
  sourceScaleMax : ℝ
  casterScaleMax : ℝ

/-- The ShadowRenderingStruct computed for one shadow configuration by the loop
    body in preRaycast. -/
noncomputable def mkShadow (planetTranslation sunPosWorld : V3) (planetRadius : ℝ)
    (c : ShadowConfE) : ShadowRenderingStruct :=
  let sourcePos := (1000 : ℝ) • c.sourcePosKm
  let casterPos := (1000 : ℝ) • c.casterPosKm
  let sourceScale := max c.sourceScaleMax 1
  let casterScale := max c.casterScaleMax 1
  let actualSourceRadius := c.sourceRadius * sourceScale
  let actualCasterRadius := c.casterRadius * casterScale
  let planetCasterVec := casterPos - planetTranslation
  let sourceCasterVec := casterPos - sourcePos
  let scLength := V3.length sourceCasterVec
  let planetCasterProj :=
    (V3.dot planetCasterVec sourceCasterVec / (scLength * scLength)) •
      sourceCasterVec
  let dTest := V3.length (planetCasterVec - planetCasterProj)
  let xpTest := actualCasterRadius * scLength /
    (actualSourceRadius + actualCasterRadius)
  let rpTest := actualCasterRadius * (V3.length planetCasterProj + xpTest) / xpTest
  let casterDistSun := V3.length (casterPos - sunPosWorld)
  let planetDistSun := V3.length (planetTranslation - sunPosWorld)
  if dTest - rpTest < planetRadius * 1000 ∧ casterDistSun < planetDistSun then
    { isShadowing := true
      radiusSource := actualSourceRadius
      radiusCaster := actualCasterRadius
      sourceCasterVec := (1 / V3.length sourceCasterVec) • sourceCasterVec
      penumbra := xpTest
      umbra := actualCasterRadius * scLength /
        (actualSourceRadius - actualCasterRadius)
      casterPositionVec := casterPos }
  else { isShadowing := false }

/-- The first shadow loop of preRaycast: returns none when a source or caster
    scene-graph node fails to resolve (the C++ code then returns from preRaycast
    right away), and otherwise the computed shadow-data cache. -/
noncomputable def shadowLoopE (planetTranslation sunPosWorld : V3)
    (planetRadius : ℝ) : List ShadowConfE → Option (List ShadowRenderingStruct)
  | [] => some []
  | c :: rest =>
      if c.sourceValid = false then none
      else if c.casterValid = false then none
      else
        match shadowLoopE planetTranslation sunPosWorld planetRadius rest with
        | none => none
        | some l => some (mkShadow planetTranslation sunPosWorld planetRadius c :: l)

/-- The uniforms the second shadow loop sets for entry number i of the cache. -/
def shadowEntryUniforms (i : ℕ) (sd : ShadowRenderingStruct) : List PreRayAction :=
  let base := "shadowDataArray[" ++ toString i ++ "]"
  PreRayAction.uniform (base ++ ".isShadowing") ::
    (if sd.isShadowing then
      [PreRayAction.uniform (base ++ ".xp"), PreRayAction.uniform (base ++ ".xu"),
       PreRayAction.uniform (base ++ ".rc"),
       PreRayAction.uniform (base ++ ".sourceCasterVec"),
       PreRayAction.uniform (base ++ ".casterPositionVec")]
    else [])

/-- The second shadow loop of preRaycast, over the whole cache with a counter. -/
def shadowUniforms : ℕ → List ShadowRenderingStruct → List PreRayAction
  | _, [] => []
  | i, sd :: rest => shadowEntryUniforms i sd ++ shadowUniforms (i + 1) rest

/-- The culling test of preRaycast: the camera is within 5000 scaled atmosphere
    radii of the planet position and the atmosphere sphere (scaled radius plus
    epsilon 2000) is inside the view frustum of projection * view. -/
noncomputable def cullTestPassed (modelTransform : Mat4) (eyePos : V3)
    (projMatrix viewMatrix : Mat4) (atmosphereRadius : ℝ) : Prop :=
  let tPlanetPos := (modelTransform.mulVec ⟨0, 0, 0, 1⟩).xyz
  let distance := V3.length (eyePos - tPlanetPos)
  let scaledRadius :=
    V3.length (modelTransform.mat3MulVec ⟨1000 * atmosphereRadius, 0, 0⟩)
  let mv := Mat4.mul projMatrix viewMatrix
  distance ≤ scaledRadius * 5000 ∧
    isAtmosphereInFrustum mv tPlanetPos (scaledRadius + 2000)

open scoped Classical in
/-- The trace of GL-visible actions performed by one call to preRaycast:
    cullAtmosphere is first set to 1; when the culling test passes the remaining
    uniforms are set (cullAtmosphere = 0, the atmosphere parameters, then the
    shadow loop, whose early return on an unresolvable scene-graph node abandons
    the rest of the function); the three table textures are bound at the end. -/
noncomputable def preRaycast (modelTransform : Mat4) (eyePos : V3)
    (projMatrix viewMatrix : Mat4) (atmosphereRadius planetRadius : ℝ)
    (planetTranslation sunPosWorld : V3)
    (shadowConfArray : List ShadowConfE) : List PreRayAction :=
  if cullTestPassed modelTransform eyePos projMatrix viewMatrix atmosphereRadius
  then
    match shadowLoopE planetTranslation sunPosWorld planetRadius
        shadowConfArray with
    | none =>
        PreRayAction.cullUniform 1 :: PreRayAction.cullUniform 0 :: baseUniforms
    | some cache =>
        PreRayAction.cullUniform 1 :: PreRayAction.cullUniform 0 ::
          (baseUniforms ++ shadowUniforms 0 cache ++
            [PreRayAction.uniform ("hardShadows")] ++ bindActions)
  else PreRayAction.cullUniform 1 :: bindActions

lemma cppRatToInt_eval (q : ℚ) (m : ℤ) (h0 : 0 ≤ m) (h : q = (m : ℚ)) :
    cppRatToInt q = m := by
  subst h
  unfold cppRatToInt
  rw [if_pos (by exact_mod_cast h0), Int.floor_intCast]

/-- C1: calculateAtmosphereParameters runs its passes in the data-dependency order
    of Bruneton's algorithm 4.1: transmittance, then the initial deltaE, deltaS,
    irradiance and in-scattering passes, then for each scattering order 2, 3, 4 in
    increasing order the deltaJ pass (reading the order o-1 deltaE and deltaS
    tables and thus only data of the order below), the deltaE and deltaS passes
    for order o, and the additive accumulation into the irradiance and
    in-scattering tables; every pass only reads tables holding the order its
    algorithm line requires, and the accumulation tables end up holding orders
    2-4 (irradiance) and 1-4 (in-scattering). -/
theorem calculateAtmosphereParameters_pass_order :
    calculateAtmosphereParameters =
      [AtmoPass.transmittancePass, AtmoPass.deltaEPass0, AtmoPass.deltaSPass0,
       AtmoPass.irradiancePass0, AtmoPass.inscatterPass0,
       AtmoPass.deltaJPass 2, AtmoPass.deltaESupPass 2, AtmoPass.deltaSSupPass 2,
       AtmoPass.irradianceSupPass 2, AtmoPass.inscatterSupPass 2,
       AtmoPass.deltaJPass 3, AtmoPass.deltaESupPass 3, AtmoPass.deltaSSupPass 3,
       AtmoPass.irradianceSupPass 3, AtmoPass.inscatterSupPass 3,
       AtmoPass.deltaJPass 4, AtmoPass.deltaESupPass 4, AtmoPass.deltaSSupPass 4,
       AtmoPass.irradianceSupPass 4, AtmoPass.inscatterSupPass 4] ∧
    (calculateAtmosphereParameters.zip
        (calculateAtmosphereParameters.scanl stepTables {})).all
      (fun pr => passReadsOk pr.2 pr.1) = true ∧
    (calculateAtmosphereParameters.foldl stepTables {}).irradianceOrders =
      [2, 3, 4] ∧
    (calculateAtmosphereParameters.foldl stepTables {}).inscatterOrders =
      [1, 2, 3, 4] := by
  decide

/-- C2: the multiple-scattering loop visits exactly the scattering orders 2, 3, 4
    in increasing order (both for the deltaJ and the deltaE passes), and the
    firstIteration uniform passed to those passes is 1 exactly for order 2. -/
theorem multiple_scattering_orders :
    (calculateAtmosphereParameters.filterMap fun p =>
      match p with
      | AtmoPass.deltaJPass o => some o
      | _ => none) = [2, 3, 4] ∧
    (calculateAtmosphereParameters.filterMap fun p =>
      match p with
      | AtmoPass.deltaESupPass o => some o
      | _ => none) = [2, 3, 4] ∧
    firstIterationUniform 2 = 1 ∧ firstIterationUniform 3 = 0 ∧
    firstIterationUniform 4 = 0 := by
  decide

/-- C5: the constructor's sample counts are 32, 8, 128 and 32 times textureScale,
    the 3D in-scattering texture has dimensions
    (muSSamples * nuSamples, muSamples, rSamples) for every scale, and the 2D
    transmittance and irradiance tables have sizes (256, 64) and (64, 16) scaled
    by the same textureScale. -/
theorem deferredcaster_table_sizes :
    (∀ s : ℚ,
      (mkAtmosphereDeferredcaster s).textureSize =
        ((mkAtmosphereDeferredcaster s).muSSamples *
           (mkAtmosphereDeferredcaster s).nuSamples,
         (mkAtmosphereDeferredcaster s).muSamples,
         (mkAtmosphereDeferredcaster s).rSamples)) ∧
    (∀ n : ℕ,
      mkAtmosphereDeferredcaster (n : ℚ) =
        { transmittanceTableSize := (256 * (n : ℤ), 64 * (n : ℤ))
          irradianceTableSize := (64 * (n : ℤ), 16 * (n : ℤ))
          deltaETableSize := (64 * (n : ℤ), 16 * (n : ℤ))
          muSSamples := 32 * (n : ℤ)
          nuSamples := 8 * (n : ℤ)
          muSamples := 128 * (n : ℤ)
          rSamples := 32 * (n : ℤ)
          textureSize := (32 * (n : ℤ) * (8 * (n : ℤ)), 128 * (n : ℤ),
            32 * (n : ℤ)) }) := by
  constructor
  · intro s
    rfl
  · intro n
    have h32 : cppRatToInt (32 * (n : ℚ)) = 32 * (n : ℤ) :=
      cppRatToInt_eval _ _ (by positivity) (by push_cast; ring)
    have h8 : cppRatToInt (8 * (n : ℚ)) = 8 * (n : ℤ) :=
      cppRatToInt_eval _ _ (by positivity) (by push_cast; ring)
    have h128 : cppRatToInt (128 * (n : ℚ)) = 128 * (n : ℤ) :=
      cppRatToInt_eval _ _ (by positivity) (by push_cast; ring)
    have h256 : cppRatToInt (256 * (n : ℚ)) = 256 * (n : ℤ) :=
      cppRatToInt_eval _ _ (by positivity) (by push_cast; ring)
    have h64 : cppRatToInt (64 * (n : ℚ)) = 64 * (n : ℤ) :=
      cppRatToInt_eval _ _ (by positivity) (by push_cast; ring)
    have h16 : cppRatToInt (16 * (n : ℚ)) = 16 * (n : ℤ) :=
      cppRatToInt_eval _ _ (by positivity) (by push_cast; ring)
    simp only [mkAtmosphereDeferredcaster, h32, h8, h128, h256, h64, h16]

/-- C10: the distance-limited transmittance, computed as a ratio of two table
    lookups (direction and endpoints inverted when mu <= 0), returns a vector
    whose every component is at most 1, for every input and on both branches. -/
theorem transmittance_ratio_le_one (tex : CPUTexture) (r mu d Rg Rt : ℝ) :
    (transmittanceD tex r mu d Rg Rt).x ≤ 1 ∧
    (transmittanceD tex r mu d Rg Rt).y ≤ 1 ∧
    (transmittanceD tex r mu d Rg Rt).z ≤ 1 := by
  unfold transmittanceD
  refine ⟨?_, ?_, ?_⟩ <;> simp [min_le_right]

lemma foldl_trap_cur_prev {M : Type} [AddCommMonoid M] (g : ℕ → M) (a : M)
    (s n : ℕ) :
    (List.range' (s + 1) n).foldl
        (fun st i => (st.1 + (g i + st.2), g i)) (a, g s) =
      (a + ∑ i ∈ Finset.range n, (g (s + i + 1) + g (s + i)), g (s + n)) := by
  induction n generalizing s a with
  | zero => simp
  | succ k ih =>
    rw [List.range'_succ]
    simp only [List.foldl_cons]
    rw [ih]
    have hs : s + 1 + k = s + (k + 1) := by omega
    rw [hs]
    congr 1
    rw [Finset.sum_range_succ' (fun i => g (s + i + 1) + g (s + i)) k]
    have hterm : ∀ i : ℕ,
        g (s + 1 + i + 1) + g (s + 1 + i) = g (s + (i + 1) + 1) + g (s + (i + 1)) :=
      fun i => by
        rw [show s + 1 + i + 1 = s + (i + 1) + 1 from by omega,
          show s + 1 + i = s + (i + 1) from by omega]
    rw [Finset.sum_congr rfl fun i _ => hterm i]
    simp only [Nat.add_zero]
    abel

lemma foldl_trap_prev_cur {M : Type} [AddCommMonoid M] (g : ℕ → M) (a : M)
    (s n : ℕ) :
    (List.range' (s + 1) n).foldl
        (fun st i => (st.1 + (st.2 + g i), g i)) (a, g s) =
      (a + ∑ i ∈ Finset.range n, (g (s + i) + g (s + i + 1)), g (s + n)) := by
  induction n generalizing s a with
  | zero => simp
  | succ k ih =>
    rw [List.range'_succ]
    simp only [List.foldl_cons]
    rw [ih]
    have hs : s + 1 + k = s + (k + 1) := by omega
    rw [hs]
    congr 1
    rw [Finset.sum_range_succ' (fun i => g (s + i) + g (s + i + 1)) k]
    have hterm : ∀ i : ℕ,
        g (s + 1 + i) + g (s + 1 + i + 1) = g (s + (i + 1)) + g (s + (i + 1) + 1) :=
      fun i => by
        rw [show s + 1 + i + 1 = s + (i + 1) + 1 from by omega,
          show s + 1 + i = s + (i + 1) from by omega]
    rw [Finset.sum_congr rfl fun i _ => hterm i]
    simp only [Nat.add_zero]
    abel

lemma odSample_zero (r mu Rg H : ℝ) (hr : 0 ≤ r) :
    odSample r mu Rg H 0 = Real.exp (-(r - Rg) / H) := by
  norm_num [odSample, Real.sqrt_mul_self hr]

/-- C3: the optical-depth integral of computeTransmittance is the composite
    trapezoidal rule with 500 uniform steps over rayDistance(r, mu, Rt, Rg) for
    f(x) = exp(-(sqrt(r^2 + x^2 + 2 x r mu) - Rg)/H), returning 1e9 when mu lies
    below the horizon cosine -sqrt(1 - Rg^2/r^2); and the single in-scattering
    integral of inscatter is the same trapezoidal scheme with 50 samples, scaled
    by the Rayleigh and Mie scattering coefficients respectively. -/
theorem trapezoidal_integration (r mu H Rt Rg muSun nu : ℝ) (tex : CPUTexture)
    (oz : Bool) (HO HM HR : ℝ) (betaRayleigh betaMieScattering : V3)
    (hr : 0 ≤ r) :
    (mu < -Real.sqrt (1 - Rg * Rg / (r * r)) →
      opticalDepth r mu H Rt Rg = 1e9) ∧
    (¬ mu < -Real.sqrt (1 - Rg * Rg / (r * r)) →
      opticalDepth r mu H Rt Rg =
        rayDistance r mu Rt Rg / (2 * 500) *
          ∑ i ∈ Finset.range 500,
            (odSample r mu Rg H ((i : ℝ) * (rayDistance r mu Rt Rg / 500)) +
             odSample r mu Rg H (((i : ℝ) + 1) * (rayDistance r mu Rt Rg / 500)))) ∧
    (inscatter r mu muSun nu Rt Rg tex oz HO HM HR betaRayleigh
        betaMieScattering =
      ((∑ i ∈ Finset.range 50,
          ((integrand r mu muSun nu ((i : ℝ) * (rayDistance r mu Rt Rg / 50))
              Rg Rt tex oz HO HM HR).1 +
           (integrand r mu muSun nu (((i : ℝ) + 1) * (rayDistance r mu Rt Rg / 50))
              Rg Rt tex oz HO HM HR).1)) *
         ((rayDistance r mu Rt Rg / (2 * 50)) • betaRayleigh),
       (∑ i ∈ Finset.range 50,
          ((integrand r mu muSun nu ((i : ℝ) * (rayDistance r mu Rt Rg / 50))
              Rg Rt tex oz HO HM HR).2 +
           (integrand r mu muSun nu (((i : ℝ) + 1) * (rayDistance r mu Rt Rg / 50))
              Rg Rt tex oz HO HM HR).2)) *
         ((rayDistance r mu Rt Rg / (2 * 50)) • betaMieScattering))) := by
  refine ⟨?_, ?_, ?_⟩
  · intro h
    simp only [opticalDepth]
    rw [if_pos h]
  · intro h
    simp only [opticalDepth]
    rw [if_neg h]
    have h0 : Real.exp (-(r - Rg) / H) =
        odSample r mu Rg H (((0 : ℕ) : ℝ) * (rayDistance r mu Rt Rg / 500)) := by
      rw [show (((0 : ℕ) : ℝ) * (rayDistance r mu Rt Rg / 500)) = 0 from by
        norm_num]
      rw [odSample_zero r mu Rg H hr]
    rw [h0,
      foldl_trap_cur_prev
        (fun i : ℕ => odSample r mu Rg H ((i : ℝ) * (rayDistance r mu Rt Rg / 500)))
        0 0 500]
    simp only [Nat.zero_add, zero_add]
    have hsum :
        (∑ i ∈ Finset.range 500,
          (odSample r mu Rg H (((i + 1 : ℕ) : ℝ) * (rayDistance r mu Rt Rg / 500)) +
           odSample r mu Rg H ((i : ℝ) * (rayDistance r mu Rt Rg / 500)))) =
        ∑ i ∈ Finset.range 500,
          (odSample r mu Rg H ((i : ℝ) * (rayDistance r mu Rt Rg / 500)) +
           odSample r mu Rg H (((i : ℝ) + 1) * (rayDistance r mu Rt Rg / 500))) := by
      refine Finset.sum_congr rfl fun i _ => ?_
      push_cast
      exact add_comm _ _
    rw [hsum]
    ring
  · simp only [inscatter]
    have h0 : integrand r mu muSun nu 0 Rg Rt tex oz HO HM HR =
        integrand r mu muSun nu (((0 : ℕ) : ℝ) * (rayDistance r mu Rt Rg / 50))
          Rg Rt tex oz HO HM HR := by
      rw [show (((0 : ℕ) : ℝ) * (rayDistance r mu Rt Rg / 50)) = 0 from by
        norm_num]
    rw [h0,
      foldl_trap_prev_cur
        (fun i : ℕ =>
          integrand r mu muSun nu ((i : ℝ) * (rayDistance r mu Rt Rg / 50))
            Rg Rt tex oz HO HM HR)
        0 0 50]
    simp only [Nat.zero_add, zero_add, Prod.fst_sum, Prod.fst_add, Prod.snd_sum,
      Prod.snd_add]
    push_cast
    rfl

theorem trapezoidal_integration_witness :
    opticalDepth 2 0 1 3 1 =
      rayDistance 2 0 3 1 / (2 * 500) *
        ∑ i ∈ Finset.range 500,
          (odSample 2 0 1 1 ((i : ℝ) * (rayDistance 2 0 3 1 / 500)) +
           odSample 2 0 1 1 (((i : ℝ) + 1) * (rayDistance 2 0 3 1 / 500))) :=
  (trapezoidal_integration 2 0 1 3 1 0 0 ⟨0, 0, []⟩ false 1 1 1 0 0
      (by norm_num)).2.1
    (not_lt.mpr (neg_nonpos.mpr (Real.sqrt_nonneg _)))

/-- C4: the texel-to-parameter mapping used when generating the CPU transmittance
    table and the parameter-to-texel mapping used when sampling it are mutual
    inverses: for Rg < Rt, 0 <= u_r and 0 <= u_mu < 1, following the generation
    mapping r = Rg + u_r^2 (Rt - Rg), mu = -0.15 + tan(1.5 u_mu)/tan(1.5) * 1.15
    with the lookup mapping returns the original texture coordinates. -/
theorem transmittance_mapping_roundtrip (Rg Rt u_mu u_r : ℝ) (hR : Rg < Rt)
    (hur : 0 ≤ u_r) (hm0 : 0 ≤ u_mu) (hm1 : u_mu < 1) :
    lookupMuCoord (genMuSun u_mu) = u_mu ∧
    lookupRCoord (genR Rg Rt u_r) Rg Rt = u_r := by
  constructor
  · unfold lookupMuCoord genMuSun
    have htpos : (0 : ℝ) < Real.tan 1.5 := by
      refine Real.tan_pos_of_pos_of_lt_pi_div_two (by norm_num) ?_
      have h3 : (3 : ℝ) < Real.pi := Real.pi_gt_three
      linarith
    have harg :
        (-0.15 + Real.tan (1.5 * u_mu) / Real.tan 1.5 * 1.15 + 0.15) / 1.15 *
          Real.tan 1.5 = Real.tan (1.5 * u_mu) := by
      field_simp
      ring
    rw [harg]
    have hb1 : -(Real.pi / 2) < 1.5 * u_mu := by
      have hpi : (0 : ℝ) < Real.pi := Real.pi_pos
      nlinarith
    have hb2 : 1.5 * u_mu < Real.pi / 2 := by
      have h3 : (3 : ℝ) < Real.pi := Real.pi_gt_three
      nlinarith
    rw [Real.arctan_tan hb1 hb2]
    ring
  · unfold lookupRCoord genR
    have hne : Rt - Rg ≠ 0 := sub_ne_zero.mpr (ne_of_gt hR)
    have hq : (Rg + u_r * u_r * (Rt - Rg) - Rg) / (Rt - Rg) = u_r * u_r := by
      field_simp
    rw [hq, Real.sqrt_mul_self hur]

theorem transmittance_mapping_roundtrip_witness :
    lookupMuCoord (genMuSun (1 / 2)) = 1 / 2 ∧
    lookupRCoord (genR 0 1 (1 / 2)) 0 1 = 1 / 2 :=
  transmittance_mapping_roundtrip 0 1 (1 / 2) (1 / 2) (by norm_num) (by norm_num)
    (by norm_num) (by norm_num)

lemma grid_length {α : Type} (t : ℕ → ℕ → α) (W : ℕ) :
    ∀ n : ℕ,
      ((List.range n).flatMap fun j => (List.range W).map fun i => t i j).length =
        n * W := by
  intro n
  induction n with
  | zero => simp
  | succ k ih =>
    rw [List.range_succ, List.flatMap_append]
    simp only [List.length_append, ih, List.flatMap_cons, List.flatMap_nil,
      List.append_nil, List.length_map, List.length_range]
    ring

lemma getElem?_grid {α : Type} (t : ℕ → ℕ → α) (W x y : ℕ) (hx : x < W) :
    ∀ H : ℕ, y < H →
      ((List.range H).flatMap fun j => (List.range W).map fun i => t i j)[y * W + x]? =
        some (t x y) := by
  intro H
  induction H with
  | zero => omega
  | succ k ih =>
    intro hy
    rw [List.range_succ, List.flatMap_append, List.getElem?_append, grid_length]
    by_cases hyk : y < k
    · have hlt : y * W + x < k * W := by
        have h1 : y * W + x < (y + 1) * W := by
          rw [Nat.succ_mul]
          exact Nat.add_lt_add_left hx (y * W)
        have h2 : (y + 1) * W ≤ k * W := Nat.mul_le_mul_right W hyk
        omega
      rw [if_pos hlt]
      exact ih hyk
    · have hyeq : y = k := by omega
      subst hyeq
      rw [if_neg (by omega)]
      have hsub : y * W + x - y * W = x := by omega
      rw [hsub]
      simp [List.getElem?_map, List.getElem?_range hx]

/-- C6: for every texel, computeTransmittance stores
    exp(-(D_ozone + D_mie + D_rayleigh)), where each component's optical depth is
    taken with its own height scale (HO, HM, HR) and scaled by the matching
    extinction coefficient, and where the ozone contribution appears exactly when
    the ozone layer is enabled. -/
theorem computeTransmittance_extinction (Rg Rt HR : ℝ) (betaRayleigh : V3)
    (HO : ℝ) (betaOzoneExtinction : V3) (HM : ℝ) (betaMieExtinction : V3)
    (ozoneLayerEnabled : Bool) (sizeX sizeY x y : ℕ)
    (hx : x < sizeX) (hy : y < sizeY) :
    (computeTransmittance Rg Rt HR betaRayleigh HO betaOzoneExtinction HM
        betaMieExtinction ozoneLayerEnabled sizeX sizeY)[y * sizeX + x]? =
      some (V3.expc
        (-((if ozoneLayerEnabled then
              (0.0000006 *
                opticalDepth (genR Rg Rt (((y : ℝ) + 0.5) / (sizeY : ℝ)))
                  (genMuSun (((x : ℝ) + 0.5) / (sizeX : ℝ))) HO Rt Rg) •
                betaOzoneExtinction
            else 0) +
           opticalDepth (genR Rg Rt (((y : ℝ) + 0.5) / (sizeY : ℝ)))
               (genMuSun (((x : ℝ) + 0.5) / (sizeX : ℝ))) HM Rt Rg •
             betaMieExtinction +
           opticalDepth (genR Rg Rt (((y : ℝ) + 0.5) / (sizeY : ℝ)))
               (genMuSun (((x : ℝ) + 0.5) / (sizeX : ℝ))) HR Rt Rg •
             betaRayleigh))) := by
  unfold computeTransmittance
  rw [getElem?_grid _ _ _ _ hx _ hy]
  rfl

theorem computeTransmittance_extinction_witness :
    (computeTransmittance 1 2 1 0 1 0 1 0 true 1 1)[0 * 1 + 0]? =
      some (V3.expc
        (-((if true then
              (0.0000006 *
                opticalDepth (genR 1 2 ((((0 : ℕ) : ℝ) + 0.5) / ((1 : ℕ) : ℝ)))
                  (genMuSun ((((0 : ℕ) : ℝ) + 0.5) / ((1 : ℕ) : ℝ))) 1 2 1) •
                (0 : V3)
            else 0) +
           opticalDepth (genR 1 2 ((((0 : ℕ) : ℝ) + 0.5) / ((1 : ℕ) : ℝ)))
               (genMuSun ((((0 : ℕ) : ℝ) + 0.5) / ((1 : ℕ) : ℝ))) 1 2 1 •
             (0 : V3) +
           opticalDepth (genR 1 2 ((((0 : ℕ) : ℝ) + 0.5) / ((1 : ℕ) : ℝ)))
               (genMuSun ((((0 : ℕ) : ℝ) + 0.5) / ((1 : ℕ) : ℝ))) 1 2 1 •
             (0 : V3)))) :=
  computeTransmittance_extinction 1 2 1 0 1 0 1 0 true 1 1 0 0 (by norm_num)
    (by norm_num)

/-- A concrete 2x2 texture distinguishing the source's interpolation from proper
    bilinear interpolation: texel (0,0) black, (1,0) red, (0,1) green,
    (1,1) white. -/
def bugTex : CPUTexture := ⟨2, 2, [⟨0, 0, 0⟩, ⟨1, 0, 0⟩, ⟨0, 1, 0⟩, ⟨1, 1, 1⟩]⟩

/-- C8 (code bug): at lookup coordinates (0, 1/2) on bugTex the code's texture
    function returns (1/2, 0, 0) because it interpolates c2 between c21 and c22,
    while the bilinear formula of the claim (and of the function's own comment),
    which interpolates between c12 and c22, returns (0, 1/2, 0); the two results
    differ. -/
theorem texture_bilinear_bug_eval :
    texture bugTex 0 (1 / 2) = ⟨1 / 2, 0, 0⟩ ∧
    textureBilinearClaim bugTex 0 (1 / 2) = ⟨0, 1 / 2, 0⟩ ∧
    texture bugTex 0 (1 / 2) ≠ textureBilinearClaim bugTex 0 (1 / 2) := by
  have h1 : texture bugTex 0 (1 / 2) = ⟨1 / 2, 0, 0⟩ := by
    unfold texture
    norm_num [bugTex, cppTrunc, cppClamp, CPUTexture.getColor, mix3, List.getD,
      Int.toNat_ofNat]
    ext <;> norm_num
  have h2 : textureBilinearClaim bugTex 0 (1 / 2) = ⟨0, 1 / 2, 0⟩ := by
    unfold textureBilinearClaim
    norm_num [bugTex, cppTrunc, cppClamp, CPUTexture.getColor, mix3, List.getD,
      Int.toNat_ofNat]
    ext <;> norm_num [show Int.toNat 2 = 2 from rfl, show Int.toNat 3 = 3 from rfl]
  refine ⟨h1, h2, ?_⟩
  rw [h1, h2]
  intro h
  have := congrArg V3.x h
  norm_num at this

lemma distanceToShadow_nonneg (shadow : ShadowRenderingStruct) (position : V3) :
    0 ≤ distanceToShadow shadow position :=
  Real.sqrt_nonneg _

lemma eclipseShadowBody_range (shadow : ShadowRenderingStruct) (hard : Bool)
    (position : V3) :
    0 ≤ eclipseShadowBody shadow hard position ∧
      eclipseShadowBody shadow hard position ≤ 1 := by
  have hd : 0 ≤ distanceToShadow shadow position :=
    distanceToShadow_nonneg shadow position
  cases hard with
  | true =>
    simp only [eclipseShadowBody, if_true]
    split_ifs <;> norm_num
  | false =>
    simp only [eclipseShadowBody, Bool.false_eq_true, if_false]
    split_ifs with h1 h2
    · have hru : 0 < radiusUmbra shadow position := lt_of_le_of_lt hd h1
      have hd4 : 0 ≤ distanceToShadow shadow position ^ 4 := by positivity
      constructor
      · exact Real.sqrt_nonneg _
      · refine Real.sqrt_le_one.mpr ?_
        rw [div_le_one (by linarith)]
        linarith
    · have hrp : 0 < radiusPenumbra shadow position := lt_of_le_of_lt hd h2
      constructor
      · exact div_nonneg hd (le_of_lt hrp)
      · rw [div_le_one hrp]
        exact le_of_lt h2
    · norm_num

/-- C9 (amended): eclipseShadow always returns a value in [0, 1]; it returns
    exactly 1 when the shadow-data cache is empty, when the first entry is not
    shadowing, or when the position lies at or beyond BOTH the penumbra radius and
    the umbra radius (the original claim's condition, at or beyond the penumbra
    radius alone, fails when the umbra radius exceeds the penumbra radius); and it
    returns exactly 0.5 inside the umbra or penumbra whenever hard shadows are
    enabled. -/
theorem eclipseShadow_amended (cache : List ShadowRenderingStruct) (hard : Bool)
    (position : V3) :
    (0 ≤ eclipseShadow cache hard position ∧
      eclipseShadow cache hard position ≤ 1) ∧
    (cache = [] → eclipseShadow cache hard position = 1) ∧
    (∀ s rest, cache = s :: rest → s.isShadowing = false →
      eclipseShadow cache hard position = 1) ∧
    (∀ s rest, cache = s :: rest →
      radiusUmbra s position ≤ distanceToShadow s position →
      radiusPenumbra s position ≤ distanceToShadow s position →
      eclipseShadow cache hard position = 1) ∧
    (∀ s rest, cache = s :: rest → s.isShadowing = true → hard = true →
      (distanceToShadow s position < radiusUmbra s position ∨
       distanceToShadow s position < radiusPenumbra s position) →
      eclipseShadow cache hard position = 0.5) := by
  refine ⟨?_, ?_, ?_, ?_, ?_⟩
  · cases cache with
    | nil => simp [eclipseShadow]
    | cons s rest =>
      simp only [eclipseShadow]
      split_ifs with h
      · norm_num
      · exact eclipseShadowBody_range s hard position
  · intro h
    subst h
    simp [eclipseShadow]
  · intro s rest h hsh
    subst h
    simp [eclipseShadow, hsh]
  · intro s rest h hru hrp
    subst h
    simp only [eclipseShadow]
    split_ifs with hsh
    · rfl
    · simp only [eclipseShadowBody]
      rw [if_neg (not_lt.mpr hru), if_neg (not_lt.mpr hrp)]
  · intro s rest h hsh hh hin
    subst h
    subst hh
    simp only [eclipseShadow, hsh, Bool.true_eq_false, if_false]
    simp only [eclipseShadowBody, if_true]
    by_cases h1 : distanceToShadow s position < radiusUmbra s position
    · rw [if_pos h1]
    · rw [if_neg h1]
      have h2 : distanceToShadow s position < radiusPenumbra s position := by
        rcases hin with h | h
        · exact absurd h h1
        · exact h
      rw [if_pos h2]

theorem eclipseShadow_amended_witness :
    eclipseShadow [] true ⟨0, 0, 0⟩ = 1 ∧
    0 ≤ eclipseShadow [] true ⟨0, 0, 0⟩ :=
  ⟨(eclipseShadow_amended [] true ⟨0, 0, 0⟩).2.1 rfl,
   (eclipseShadow_amended [] true ⟨0, 0, 0⟩).1.1⟩

/-- A shadow-data entry with a negative penumbra field, making the umbra radius
    exceed the penumbra radius. -/
noncomputable def cxShadow : ShadowRenderingStruct :=
  { isShadowing := true
    radiusSource := 0
    radiusCaster := 1
    sourceCasterVec := ⟨1, 0, 0⟩
    penumbra := -1
    umbra := 10
    casterPositionVec := ⟨0, 0, 0⟩ }

/-- A position at distance 7/10 from the shadow axis. -/
noncomputable def cxPos : V3 := ⟨-(1 / 2), 7 / 10, 0⟩

/-- C9 (counterexample): at cxShadow/cxPos the position lies at or beyond the
    penumbra radius (1/2), yet eclipseShadow with hard shadows returns 0.5 and
    not 1 (the position is still inside the umbra radius 19/20), refuting the
    claim that the function returns exactly 1.0 whenever the position lies at or
    beyond the penumbra radius. -/
theorem eclipseShadow_penumbra_counterexample :
    cxShadow.isShadowing = true ∧
    radiusPenumbra cxShadow cxPos ≤ distanceToShadow cxShadow cxPos ∧
    eclipseShadow [cxShadow] true cxPos = 0.5 ∧
    eclipseShadow [cxShadow] true cxPos ≠ 1 := by
  have hdot : V3.dot
      (positionToCaster cxShadow cxPos - casterShadowV cxShadow cxPos)
      (positionToCaster cxShadow cxPos - casterShadowV cxShadow cxPos) =
      (7 / 10) * (7 / 10) := by
    norm_num [positionToCaster, casterShadowV, V3.dot, cxShadow, cxPos]
  have hd : distanceToShadow cxShadow cxPos = 7 / 10 := by
    unfold distanceToShadow V3.length
    rw [hdot, Real.sqrt_mul_self (by norm_num)]
  have hdot2 : V3.dot (casterShadowV cxShadow cxPos)
      (casterShadowV cxShadow cxPos) = (1 / 2) * (1 / 2) := by
    norm_num [casterShadowV, positionToCaster, V3.dot, cxShadow, cxPos]
  have hsl : shadowLength cxShadow cxPos = 1 / 2 := by
    unfold shadowLength V3.length
    rw [hdot2, Real.sqrt_mul_self (by norm_num)]
  have hrp : radiusPenumbra cxShadow cxPos = 1 / 2 := by
    unfold radiusPenumbra
    rw [hsl]
    show (1 : ℝ) * (1 / 2 + -1) / -1 = 1 / 2
    norm_num
  have hru : radiusUmbra cxShadow cxPos = 19 / 20 := by
    unfold radiusUmbra
    rw [hsl]
    show (1 : ℝ) * (10 - 1 / 2) / 10 = 19 / 20
    norm_num
  have hval : eclipseShadow [cxShadow] true cxPos = 0.5 := by
    simp only [eclipseShadow]
    rw [if_neg (by simp [cxShadow])]
    unfold eclipseShadowBody
    rw [hd, hru]
    rw [if_pos (by norm_num)]
    rfl
  refine ⟨rfl, ?_, hval, ?_⟩
  · rw [hrp, hd]
    norm_num
  · rw [hval]
    norm_num

lemma V3.length_axis (c : ℝ) (h : 0 ≤ c) : V3.length ⟨c, 0, 0⟩ = c := by
  unfold V3.length V3.dot
  norm_num [Real.sqrt_mul_self h]

lemma shadowLoopE_allValid (planetTranslation sunPosWorld : V3) (planetRadius : ℝ)
    (confs : List ShadowConfE)
    (h : ∀ c ∈ confs, c.sourceValid = true ∧ c.casterValid = true) :
    shadowLoopE planetTranslation sunPosWorld planetRadius confs =
      some (confs.map (mkShadow planetTranslation sunPosWorld planetRadius)) := by
  induction confs with
  | nil => simp [shadowLoopE]
  | cons c rest ih =>
    obtain ⟨h1, h2⟩ := h c (List.mem_cons_self c rest)
    rw [shadowLoopE, if_neg (by simp [h1]), if_neg (by simp [h2]),
      ih fun d hd => h d (List.mem_cons_of_mem c hd)]
    simp

/-- C7 (amended): preRaycast always first sets cullAtmosphere to 1; when the
    culling test fails, the trace is exactly that single uniform followed by the
    three texture binds, so no other atmosphere uniform is set and cullAtmosphere
    stays 1; when the culling test passes and every shadow configuration's
    scene-graph nodes resolve, cullAtmosphere is set to 0, the atmosphere
    uniforms are set, and the textures are bound at the end; and the remaining
    atmosphere uniforms (represented by Rg and cullAtmosphere = 0) are set only
    when the culling test passes.  (The original claim's unconditional texture
    binding fails on the early return taken when a shadow configuration's
    scene-graph node does not resolve.) -/
theorem preRaycast_culling_amended (modelTransform : Mat4) (eyePos : V3)
    (projMatrix viewMatrix : Mat4) (atmosphereRadius planetRadius : ℝ)
    (planetTranslation sunPosWorld : V3) (confs : List ShadowConfE) :
    (¬ cullTestPassed modelTransform eyePos projMatrix viewMatrix
        atmosphereRadius →
      preRaycast modelTransform eyePos projMatrix viewMatrix atmosphereRadius
          planetRadius planetTranslation sunPosWorld confs =
        PreRayAction.cullUniform 1 :: bindActions) ∧
    (cullTestPassed modelTransform eyePos projMatrix viewMatrix
        atmosphereRadius →
      (∀ c ∈ confs, c.sourceValid = true ∧ c.casterValid = true) →
      ∃ mid,
        preRaycast modelTransform eyePos projMatrix viewMatrix atmosphereRadius
            planetRadius planetTranslation sunPosWorld confs =
          PreRayAction.cullUniform 1 :: PreRayAction.cullUniform 0 ::
            (mid ++ bindActions)) ∧
    (PreRayAction.uniform ("Rg") ∈
        preRaycast modelTransform eyePos projMatrix viewMatrix atmosphereRadius
          planetRadius planetTranslation sunPosWorld confs →
      cullTestPassed modelTransform eyePos projMatrix viewMatrix
        atmosphereRadius) ∧
    (PreRayAction.cullUniform 0 ∈
        preRaycast modelTransform eyePos projMatrix viewMatrix atmosphereRadius
          planetRadius planetTranslation sunPosWorld confs →
      cullTestPassed modelTransform eyePos projMatrix viewMatrix
        atmosphereRadius) := by
  by_cases h : cullTestPassed modelTransform eyePos projMatrix viewMatrix
    atmosphereRadius
  · refine ⟨fun hn => absurd h hn, fun _ hv => ?_, fun _ => h, fun _ => h⟩
    refine ⟨baseUniforms ++
      shadowUniforms 0
        (confs.map (mkShadow planetTranslation sunPosWorld planetRadius)) ++
      [PreRayAction.uniform ("hardShadows")], ?_⟩
    unfold preRaycast
    rw [if_pos h, shadowLoopE_allValid planetTranslation sunPosWorld planetRadius
      confs hv]
  · have htr : preRaycast modelTransform eyePos projMatrix viewMatrix
        atmosphereRadius planetRadius planetTranslation sunPosWorld confs =
        PreRayAction.cullUniform 1 :: bindActions := by
      unfold preRaycast
      rw [if_neg h]
    refine ⟨fun _ => htr, fun hc => absurd hc h, fun hmem => ?_, fun hmem => ?_⟩
    · rw [htr] at hmem
      exact absurd hmem (by decide)
    · rw [htr] at hmem
      exact absurd hmem (by decide)

/-- The identity model/view/projection matrix used for the concrete preRaycast
    evaluations. -/
noncomputable def idMat : Mat4 :=
  ⟨⟨1, 0, 0, 0⟩, ⟨0, 1, 0, 0⟩, ⟨0, 0, 1, 0⟩, ⟨0, 0, 0, 1⟩⟩

theorem preRaycast_culling_amended_witness :
    preRaycast idMat ⟨10000000000, 0, 0⟩ idMat idMat 1 1 ⟨0, 0, 0⟩ ⟨0, 0, 0⟩ [] =
      PreRayAction.cullUniform 1 :: bindActions := by
  have hpp : (idMat.mulVec ⟨0, 0, 0, 1⟩).xyz = (⟨0, 0, 0⟩ : V3) := by
    norm_num [Mat4.mulVec, V4.xyz, idMat, V3.mk.injEq]
  have hnot : ¬ cullTestPassed idMat ⟨10000000000, 0, 0⟩ idMat idMat 1 := by
    simp only [cullTestPassed]
    intro hc
    obtain ⟨h1, -⟩ := hc
    rw [hpp] at h1
    rw [show (⟨10000000000, 0, 0⟩ : V3) - ⟨0, 0, 0⟩ = ⟨10000000000, 0, 0⟩ from by
      ext <;> norm_num] at h1
    rw [V3.length_axis 10000000000 (by norm_num)] at h1
    rw [show Mat4.mat3MulVec idMat ⟨1000 * 1, 0, 0⟩ = (⟨1000, 0, 0⟩ : V3) from by
      norm_num [Mat4.mat3MulVec, idMat, V3.mk.injEq]] at h1
    rw [V3.length_axis 1000 (by norm_num)] at h1
    norm_num at h1
  exact (preRaycast_culling_amended idMat ⟨10000000000, 0, 0⟩ idMat idMat 1 1
    ⟨0, 0, 0⟩ ⟨0, 0, 0⟩ []).1 hnot

/-- A shadow configuration whose source and caster scene-graph nodes do not
    resolve. -/
noncomputable def badConf : ShadowConfE := ⟨false, false, 0, 0, 0, 0, 0, 0⟩

/-- C7 (counterexample): with the identity transform, the camera at the planet
    center (culling test passes) and a single shadow configuration whose
    scene-graph nodes do not resolve, preRaycast returns early and its trace
    contains none of the three texture binds, refuting the claim that the tables
    are bound on every call. -/
theorem preRaycast_binding_counterexample :
    cullTestPassed idMat ⟨0, 0, 0⟩ idMat idMat 1 ∧
    PreRayAction.bindTexture ("transmittance") ∉
      preRaycast idMat ⟨0, 0, 0⟩ idMat idMat 1 1 ⟨0, 0, 0⟩ ⟨0, 0, 0⟩ [badConf] ∧
    PreRayAction.bindTexture ("irradiance") ∉
      preRaycast idMat ⟨0, 0, 0⟩ idMat idMat 1 1 ⟨0, 0, 0⟩ ⟨0, 0, 0⟩ [badConf] ∧
    PreRayAction.bindTexture ("inScattering") ∉
      preRaycast idMat ⟨0, 0, 0⟩ idMat idMat 1 1 ⟨0, 0, 0⟩ ⟨0, 0, 0⟩ [badConf] := by
  have hpp : (idMat.mulVec ⟨0, 0, 0, 1⟩).xyz = (⟨0, 0, 0⟩ : V3) := by
    norm_num [Mat4.mulVec, V4.xyz, idMat, V3.mk.injEq]
  have hsr : V3.length (Mat4.mat3MulVec idMat ⟨1000 * 1, 0, 0⟩) = 1000 := by
    rw [show Mat4.mat3MulVec idMat ⟨1000 * 1, 0, 0⟩ = (⟨1000, 0, 0⟩ : V3) from by
      norm_num [Mat4.mat3MulVec, idMat, V3.mk.injEq]]
    exact V3.length_axis 1000 (by norm_num)
  have hmul : Mat4.mul idMat idMat = idMat := by
    norm_num [Mat4.mul, Mat4.mulVec, idMat, Mat4.mk.injEq, V4.mk.injEq]
  have hcull : cullTestPassed idMat ⟨0, 0, 0⟩ idMat idMat 1 := by
    simp only [cullTestPassed]
    rw [hpp, hsr, hmul]
    constructor
    · rw [show (⟨0, 0, 0⟩ : V3) - ⟨0, 0, 0⟩ = ⟨0, 0, 0⟩ from by ext <;> norm_num]
      rw [V3.length_axis 0 (by norm_num)]
      norm_num
    · norm_num [isAtmosphereInFrustum, idMat, V3.length, V3.dot, Real.sqrt_one]
  have hloop : shadowLoopE ⟨0, 0, 0⟩ ⟨0, 0, 0⟩ 1 [badConf] = none := by
    simp [shadowLoopE, badConf]
  have htrace : preRaycast idMat ⟨0, 0, 0⟩ idMat idMat 1 1 ⟨0, 0, 0⟩ ⟨0, 0, 0⟩
      [badConf] =
      PreRayAction.cullUniform 1 :: PreRayAction.cullUniform 0 :: baseUniforms := by
    unfold preRaycast
    rw [if_pos hcull, hloop]
  refine ⟨hcull, ?_, ?_, ?_⟩ <;>
    · rw [htrace]
      decide

end OpenSpaceAtmosphere
